import Mathlib

/-
Verification of the function-calling conversation agent:
shallow embedding of the function registry (src/function-registry.js),
the retrying OpenAI client (src/openai-client.js) and the conversation
orchestrator (src/chat-manager.js), followed by theorems about the
claims of the specification.

Modelling conventions:
* JavaScript runtime values are modelled by the inductive type `JVal`.
  JS numbers are modelled as integers (no NaN/Infinity/float artefacts are
  needed by any claim); circular object graphs are not representable
  (inductive values are finite trees), which is noted wherever it matters.
* Wall-clock data (ISO timestamps on messages and results, the measured
  `executionTime`) is not modelled: no claim depends on it.
* An asynchronous handler is modelled by the time (in ms) at which it
  settles (`none` = it never settles) together with its outcome
  (fulfilled value or rejection message).
* The OpenAI network endpoint is modelled by a script: a list of
  completions consumed one per successful request, in order.
-/

/-- A JavaScript runtime value (the values handlers receive and return). -/
inductive JVal where
  | null
  | bool (b : Bool)
  | num (n : Int)
  | str (s : String)
  | arr (elems : List JVal)
  | obj (props : List (String × JVal))
  | func
  | undef
  | symbol (description : String)

/-- JS truthiness (`!v` in the source is `!(jsTruthy v)` here). -/
def jsTruthy : JVal → Bool
  | JVal.null => false
  | JVal.bool b => b
  | JVal.num n => n != 0
  | JVal.str s => s != ""
  | JVal.arr _ => true
  | JVal.obj _ => true
  | JVal.func => true
  | JVal.undef => false
  | JVal.symbol _ => true

/-- The JS `typeof` operator, used in validation error messages. -/
def jsTypeof : JVal → String
  | JVal.null => "object"
  | JVal.bool _ => "boolean"
  | JVal.num _ => "number"
  | JVal.str _ => "string"
  | JVal.arr _ => "object"
  | JVal.obj _ => "object"
  | JVal.func => "function"
  | JVal.undef => "undefined"
  | JVal.symbol _ => "symbol"

/-- Whether a value is a string (for `typeof v === 'string'` checks). -/
def isJsString : JVal → Bool
  | JVal.str _ => true
  | _ => false

/-- The underlying string of a string value (only used under `isJsString`). -/
def jsStrVal : JVal → String
  | JVal.str s => s
  | _ => ""

/-- `String.prototype.trim`: strip leading and trailing whitespace
(JS trims the Unicode whitespace and line-terminator classes; the claims
only involve ASCII whitespace, covered by `Char.isWhitespace`). -/
def jsTrim (s : String) : String :=
  String.mk (((s.data.dropWhile Char.isWhitespace).reverse.dropWhile
    Char.isWhitespace).reverse)

/-- `typeof args === 'object' && args !== null` (arrays count as objects). -/
def jsArgsIsObject : JVal → Bool
  | JVal.obj _ => true
  | JVal.arr _ => true
  | _ => false

/-- Own enumerable entries of a value, as `Object.entries` sees them
(array entries are keyed by their decimal index). -/
def jvalEntries : JVal → List (String × JVal)
  | JVal.obj props => props
  | JVal.arr elems => elems.enum.map (fun p => (toString p.1, p.2))
  | _ => []

/-- The `key in args` membership test, restricted to own enumerable keys
(prototype-chain keys are not modelled). -/
def jvalHasKey (v : JVal) (k : String) : Bool :=
  (jvalEntries v).any (fun kv => kv.1 == k)

/-- JS strict equality `===`, used by `enum.includes`. It is structural on
primitives; two distinct object/array/function expressions are reference-
unequal, modelled as `false`. -/
def jsStrictEq : JVal → JVal → Bool
  | JVal.null, JVal.null => true
  | JVal.undef, JVal.undef => true
  | JVal.bool a, JVal.bool b => a == b
  | JVal.num a, JVal.num b => a == b
  | JVal.str a, JVal.str b => a == b
  | _, _ => false

/-- `String(v)`: JS string coercion, used by `formatFunctionResult` for
primitive results. Arrays join their coerced elements with commas. -/
def jsStringOf : JVal → String
  | JVal.null => "null"
  | JVal.bool b => if b then "true" else "false"
  | JVal.num n => toString n
  | JVal.str s => s
  | JVal.undef => "undefined"
  | JVal.func => "function () \x7b\x7d"
  | JVal.symbol d => "Symbol(" ++ d ++ ")"
  | JVal.arr elems => String.intercalate "," (jsStringOfList elems)
  | JVal.obj _ => "[object Object]"
where
  /-- coerce each array element. -/
  jsStringOfList : List JVal → List String
    | [] => []
    | v :: vs => jsStringOf v :: jsStringOfList vs

mutual

/-- `JSON.stringify(v)`: function/undefined/symbol values become `null`
inside arrays and are dropped inside objects. String escaping and the
pretty-printing whitespace of `JSON.stringify(v, null, 2)` are not
modelled (no claim depends on the exact text). -/
def jsonStringify : JVal → String
  | JVal.null => "null"
  | JVal.bool b => if b then "true" else "false"
  | JVal.num n => toString n
  | JVal.str s => "\"" ++ s ++ "\""
  | JVal.undef => "undefined"
  | JVal.func => "undefined"
  | JVal.symbol _ => "undefined"
  | JVal.arr elems => "[" ++ String.intercalate "," (jsonStringifyList elems) ++ "]"
  | JVal.obj props => "\x7b" ++ String.intercalate "," (jsonStringifyProps props) ++ "\x7d"

/-- Array elements: unserializable members serialize as `null`. -/
def jsonStringifyList : List JVal → List String
  | [] => []
  | JVal.undef :: vs => "null" :: jsonStringifyList vs
  | JVal.func :: vs => "null" :: jsonStringifyList vs
  | JVal.symbol _ :: vs => "null" :: jsonStringifyList vs
  | v :: vs => jsonStringify v :: jsonStringifyList vs

/-- Object properties: unserializable members are omitted. -/
def jsonStringifyProps : List (String × JVal) → List String
  | [] => []
  | (_, JVal.undef) :: ps => jsonStringifyProps ps
  | (_, JVal.func) :: ps => jsonStringifyProps ps
  | (_, JVal.symbol _) :: ps => jsonStringifyProps ps
  | (k, v) :: ps => ("\"" ++ k ++ "\":" ++ jsonStringify v) :: jsonStringifyProps ps

end

mutual

/-- A value is pure JSON data: no function, undefined or symbol anywhere.
This is the sense of "JSON-serializable" used by the specification's
sanitization property (an `ExecutionResult` must hold no live handles). -/
def isJsonValue : JVal → Bool
  | JVal.null => true
  | JVal.bool _ => true
  | JVal.num _ => true
  | JVal.str _ => true
  | JVal.arr elems => isJsonValueList elems
  | JVal.obj props => isJsonValueProps props
  | JVal.func => false
  | JVal.undef => false
  | JVal.symbol _ => false

/-- all array elements are JSON data. -/
def isJsonValueList : List JVal → Bool
  | [] => true
  | v :: vs => isJsonValue v && isJsonValueList vs

/-- all property values are JSON data. -/
def isJsonValueProps : List (String × JVal) → Bool
  | [] => true
  | (_, v) :: ps => isJsonValue v && isJsonValueProps ps

end

/- ----------------------------------------------------------------- -/
/- Function registry (src/function-registry.js)                       -/
/- ----------------------------------------------------------------- -/

/-- Schema of one declared parameter (a JSON-Schema-like property).
`patternTest` models `new RegExp(schema.pattern).test` for a non-empty
pattern; `none` models an absent (or empty, hence falsy) pattern. -/
structure ParamSchema where
  type : Option String := none
  minLength : Option Nat := none
  maxLength : Option Nat := none
  patternTest : Option (String → Bool) := none
  minimum : Option Int := none
  maximum : Option Int := none
  minItems : Option Nat := none
  maxItems : Option Nat := none
  enum : Option (List JVal) := none

/-- The `parameters` object of a function schema. The fields are typed,
so the source's `typeof parameters.properties === 'object'` and
`Array.isArray(parameters.required)` checks hold by construction whenever
the fields are present. -/
structure ParamsSchema where
  type : Option String := none
  properties : Option (List (String × ParamSchema)) := none
  required : Option (List String) := none
  additionalProperties : Option Bool := none

/-- An OpenAI-compatible function schema. -/
structure FunctionSchema where
  name : String
  description : String
  parameters : Option ParamsSchema := none

/-- Behaviour of one handler invocation: the time (ms) at which the
returned promise settles (`none` = never), and how it settles. A handler
that throws synchronously is a handler that settles at time 0 with a
rejection. -/
structure HandlerBehavior where
  settle : Option Nat
  outcome : Except String JVal

/-- A handler: from the (already parsed) arguments value to its behaviour. -/
abbrev Handler : Type := JVal → HandlerBehavior

/-- A registered function: schema + handler + name, as stored by
`registerFunction` via `this.functions.set(name, { schema, handler, name })`. -/
structure FunctionRecord where
  schema : FunctionSchema
  handler : Handler
  name : String

/-- The registry's `Map`, as an insertion-ordered association list. -/
abbrev Registry : Type := List (String × FunctionRecord)

/-- `Map.get`. -/
def mapGet (m : Registry) (k : String) : Option FunctionRecord :=
  (m.find? (fun kv => kv.1 == k)).map (fun kv => kv.2)

/-- `Map.set`: updates an existing key in place (keeping its position),
otherwise appends. -/
def mapSet (m : Registry) (k : String) (v : FunctionRecord) : Registry :=
  if m.any (fun kv => kv.1 == k) then
    m.map (fun kv => if kv.1 == k then (k, v) else kv)
  else
    m ++ [(k, v)]

/-- `validateSchema`: name and description must be non-empty strings; if a
`parameters` object is present, its `type` (when truthy) must be
"object". The `properties`-is-object and `required`-is-array checks hold
by construction of `ParamsSchema`. -/
def validateSchema (schema : FunctionSchema) : Bool :=
  if schema.name == "" then false
  else if schema.description == "" then false
  else
    match schema.parameters with
    | none => true
    | some p =>
      match p.type with
      | some t => t == "" || t == "object"
      | none => true

/-- `registerFunction`: validates name, schema and handler, then stores the
record under `name`. The handler-is-a-function check holds by typing. The
registry never compares `name` with `schema.name`. A thrown error is the
`Except.error` case. -/
def registerFunction (reg : Registry) (name : String) (schema : FunctionSchema)
    (handler : Handler) : Except String Registry :=
  if name == "" then
    Except.error "Function name must be a non-empty string"
  else if !(validateSchema schema) then
    Except.error "Invalid function schema"
  else
    Except.ok (mapSet reg name { schema := schema, handler := handler, name := name })

/-- `unregisterFunction`: `Map.delete` (its boolean return is not modelled). -/
def unregisterFunction (reg : Registry) (name : String) : Registry :=
  reg.filter (fun kv => !(kv.1 == name))

/-- `getFunctionSchemas`: all schemas in registration order. -/
def getFunctionSchemas (reg : Registry) : List FunctionSchema :=
  reg.map (fun kv => kv.2.schema)

/-- A schema wrapper as found in `built-in-functions.js`:
`{ type: "function", function: {...} }`. -/
structure SchemaWrapper where
  type : String := "function"
  function : FunctionSchema

/-- `registerBuiltInFunctions`: registers each wrapped schema under
`schema.name` with the handler looked up by that name. A missing handler
or an invalid schema throws, which aborts the loop; registrations made
before the throw persist (the source mutates the map as it goes). -/
def registerBuiltInFunctions (reg : Registry) :
    List SchemaWrapper → List (String × Handler) → Registry
  | [], _ => reg
  | w :: ws, handlers =>
    match (handlers.find? (fun h => h.1 == w.function.name)).map (fun h => h.2) with
    | none => reg
    | some handler =>
      match registerFunction reg w.function.name w.function handler with
      | Except.error _ => reg
      | Except.ok reg' => registerBuiltInFunctions reg' ws handlers

/-- First error among a list of optional errors (models a sequence of
early-`return` checks). -/
def firstErr (checks : List (Option String)) : Option String :=
  checks.findSome? id

/-- `validateParameterType`: JSON-Schema type check. In the integer model
of JS numbers, every number is finite, non-NaN and integral, so the
`number` and `integer` cases coincide. Unknown types are permissive. -/
def validateParameterType : JVal → String → Bool
  | JVal.null, t => t == "null"
  | v, t =>
    if t == "string" then (match v with | JVal.str _ => true | _ => false)
    else if t == "number" then (match v with | JVal.num _ => true | _ => false)
    else if t == "integer" then (match v with | JVal.num _ => true | _ => false)
    else if t == "boolean" then (match v with | JVal.bool _ => true | _ => false)
    else if t == "array" then (match v with | JVal.arr _ => true | _ => false)
    else if t == "object" then (match v with | JVal.obj _ => true | _ => false)
    else if t == "null" then false
    else true

/-- `validateParameterConstraints`: string length/pattern, numeric bounds,
array item bounds, enum membership, with the source's first-violation
error message. The typed branches are only reachable after the type check
has passed, so the non-matching value cases return no error. -/
def validateParameterConstraints (value : JVal) (schema : ParamSchema)
    (paramName : String) : Option String :=
  firstErr
    [ if schema.type == some "string" then
        match value with
        | JVal.str s => firstErr
            [ match schema.minLength with
              | some m =>
                if s.length < m then
                  some ("Parameter '" ++ paramName ++ "' must be at least " ++
                    toString m ++ " characters long")
                else none
              | none => none
            , match schema.maxLength with
              | some m =>
                if s.length > m then
                  some ("Parameter '" ++ paramName ++ "' must be at most " ++
                    toString m ++ " characters long")
                else none
              | none => none
            , match schema.patternTest with
              | some test =>
                if !(test s) then
                  some ("Parameter '" ++ paramName ++ "' does not match required pattern")
                else none
              | none => none ]
        | _ => none
      else none
    , if schema.type == some "number" || schema.type == some "integer" then
        match value with
        | JVal.num n => firstErr
            [ match schema.minimum with
              | some m =>
                if n < m then
                  some ("Parameter '" ++ paramName ++ "' must be at least " ++ toString m)
                else none
              | none => none
            , match schema.maximum with
              | some m =>
                if n > m then
                  some ("Parameter '" ++ paramName ++ "' must be at most " ++ toString m)
                else none
              | none => none ]
        | _ => none
      else none
    , if schema.type == some "array" then
        match value with
        | JVal.arr elems => firstErr
            [ match schema.minItems with
              | some m =>
                if elems.length < m then
                  some ("Parameter '" ++ paramName ++ "' must have at least " ++
                    toString m ++ " items")
                else none
              | none => none
            , match schema.maxItems with
              | some m =>
                if elems.length > m then
                  some ("Parameter '" ++ paramName ++ "' must have at most " ++
                    toString m ++ " items")
                else none
              | none => none ]
        | _ => none
      else none
    , match schema.enum with
      | some choices =>
        if !(choices.any (fun c => jsStrictEq c value)) then
          some ("Parameter '" ++ paramName ++ "' must be one of: " ++
            String.intercalate ", " (choices.map jsStringOf))
        else none
      | none => none ]

/-- The first declared required key missing from the arguments (the
source's required-parameter loop returns on the first missing one). -/
def firstMissingRequired (required : List String) (args : JVal) : Option String :=
  required.find? (fun k => !(jvalHasKey args k))

/-- Property lookup in the declared `properties`. -/
def lookupProp (props : List (String × ParamSchema)) (k : String) : Option ParamSchema :=
  (props.find? (fun pr => pr.1 == k)).map (fun pr => pr.2)

/-- `validateArguments`: returns `none` for `{isValid: true}` and
`some message` for `{isValid: false, error: message}`. Note the source
returns valid immediately when `parameters.properties` is absent — the
`required` list is then never consulted. -/
def validateArguments (args : JVal) (parameters : ParamsSchema) : Option String :=
  match parameters.properties with
  | none => none
  | some props =>
    if !(jsArgsIsObject args) then
      some "Arguments must be an object"
    else
      match
        (match parameters.required with
         | some required =>
           match firstMissingRequired required args with
           | some k => some ("Missing required parameter: " ++ k)
           | none => none
         | none => none) with
      | some e => some e
      | none =>
        match
          (jvalEntries args).findSome? (fun kv =>
            match lookupProp props kv.1 with
            | none => none
            | some paramSchema =>
              match
                (match paramSchema.type with
                 | some t =>
                   if t != "" && !(validateParameterType kv.2 t) then
                     some ("Invalid type for parameter '" ++ kv.1 ++ "': expected " ++
                       t ++ ", got " ++ jsTypeof kv.2)
                   else none
                 | none => none) with
              | some e => some e
              | none => validateParameterConstraints kv.2 paramSchema kv.1) with
        | some e => some e
        | none =>
          if parameters.additionalProperties == some false then
            let allowed := props.map (fun pr => pr.1)
            let unexpected :=
              ((jvalEntries args).map (fun kv => kv.1)).filter
                (fun k => !(allowed.contains k))
            if unexpected.length > 0 then
              some ("Unexpected parameters: " ++ String.intercalate ", " unexpected)
            else none
          else none

/-- A structured execution error (`formatError`'s `error` object; the ISO
timestamp is not modelled). -/
structure ErrInfo where
  message : String
  type : String
  functionName : Option String := none
  originalError : Option String := none

/-- An `ExecutionResult`. `timeout` is the metadata field set by
`executeFunctionSafely`; the measured `executionTime` is wall-clock data
and is not modelled. -/
structure ExecutionResult where
  success : Bool
  result : Option JVal := none
  error : Option ErrInfo := none
  functionName : Option String := none
  timeout : Option Nat := none

/-- `formatSuccess`. -/
def formatSuccess (result : JVal) (functionName : String) : ExecutionResult :=
  { success := true, result := some result, functionName := some functionName,
    error := none }

/-- `formatError` (metadata restricted to the two fields the source ever
passes: `functionName` and `originalError`). -/
def formatError (message : String) (errorType : String)
    (functionName : Option String := none) (originalError : Option String := none) :
    ExecutionResult :=
  { success := false, result := none,
    error := some { message := message, type := errorType,
                    functionName := functionName, originalError := originalError } }

/-- The fixed internal race timeout of `executeFunction` (5000 ms). -/
def raceTimeoutMs : Nat := 5000

/-- `executeFunction`: existence gate, then argument validation, then the
handler raced against the fixed 5000 ms timeout. A timeout rejection is
caught by the same `catch` as a handler rejection, so both surface as
`EXECUTION_ERROR` (the rejected `Error`'s `.name` is "Error"). The
registry map is never mutated by execution. Note the race threshold is
the local constant 5000, not anything a caller passed. -/
def executeFunction (reg : Registry) (name : String) (args : JVal) : ExecutionResult :=
  match mapGet reg name with
  | none => formatError ("Function '" ++ name ++ "' not found") "FUNCTION_NOT_FOUND"
  | some functionData =>
    match
      (match functionData.schema.parameters with
       | some parameters => validateArguments args parameters
       | none => none) with
    | some validationError => formatError validationError "VALIDATION_ERROR"
    | none =>
      let behavior := functionData.handler args
      match behavior.settle with
      | some t =>
        if t < raceTimeoutMs then
          match behavior.outcome with
          | Except.ok result => formatSuccess result name
          | Except.error msg =>
            formatError ("Function execution failed: " ++ msg) "EXECUTION_ERROR"
              (some name) (some "Error")
        else
          formatError
            "Function execution failed: Function execution timeout after 5000ms"
            "EXECUTION_ERROR" (some name) (some "Error")
      | none =>
        formatError
          "Function execution failed: Function execution timeout after 5000ms"
          "EXECUTION_ERROR" (some name) (some "Error")

/-- Whether `JSON.stringify` throws on a value. It throws only on circular
structures (and BigInt, not modelled); every representable value is a
finite acyclic tree, so it never throws here. In particular it does NOT
throw on function/undefined/symbol values — it silently yields `undefined`
for them or drops them from objects. -/
def jsonStringifyThrows (_ : JVal) : Bool := false

/-- `sanitizeResult`: returns the value unchanged whenever
`JSON.stringify` does not throw. The conversion branches (function →
"[Function]", undefined → null, symbol → its string) are transcribed but
unreachable for every representable value, because the guard never fires
on acyclic data; the `Error`-instance branch and the own-property
fallback walk are likewise unreachable and are not transcribed. -/
def sanitizeResult (result : JVal) : JVal :=
  if jsonStringifyThrows result then
    match result with
    | JVal.func => JVal.str "[Function]"
    | JVal.undef => JVal.null
    | JVal.symbol d => JVal.str ("Symbol(" ++ d ++ ")")
    | v => v
  else
    result

/-- Options of `executeFunctionSafely`. -/
structure ExecOptions where
  timeout : Nat := 5000
  sanitizeResults : Bool := true

/-- `executeFunctionSafely`: runs `executeFunction` (note: WITHOUT passing
`options.timeout` — the race inside `executeFunction` always uses its own
5000 ms constant), sanitizes a successful result when requested, and
records `options.timeout` in the result's metadata. The `catch` branch
(`UNEXPECTED_ERROR`) is unreachable in the model because `executeFunction`
never throws. -/
def executeFunctionSafely (reg : Registry) (name : String) (args : JVal)
    (options : ExecOptions) : ExecutionResult :=
  let result := executeFunction reg name args
  let result :=
    if result.success && options.sanitizeResults then
      { result with result := result.result.map sanitizeResult }
    else result
  { result with timeout := some options.timeout }

/- ----------------------------------------------------------------- -/
/- Retrying OpenAI client (src/openai-client.js)                      -/
/- ----------------------------------------------------------------- -/

/-- A provider/transport error as seen by the retry logic: an optional
HTTP status, an optional transport error code, a message and an error
name. An empty message models a falsy `error.message`. -/
structure ApiError where
  status : Option Nat := none
  code : Option String := none
  message : String := ""
  name : String := "Error"

/-- `_shouldNotRetry`: 401/403 (auth), 400 (bad request) and 404
(not found) are terminal. -/
def shouldNotRetry (e : ApiError) : Bool :=
  e.status == some 401 || e.status == some 403 ||
  e.status == some 400 || e.status == some 404

/-- `_handleApiError`: the table-driven classification into user-facing
error messages, transcribed branch by branch. -/
def handleApiError (e : ApiError) : String :=
  if e.status == some 401 then
    "Authentication failed: Invalid API key. Please check your OpenAI API key.\n" ++
    "You can find your API key at: https://platform.openai.com/api-keys"
  else if e.status == some 429 then
    "Rate limit exceeded: Too many requests to OpenAI API. Please wait before making more requests."
  else if e.status == some 400 then
    "Bad request: " ++ (if e.message == "" then "Invalid request parameters" else e.message)
  else if e.status == some 403 then
    "Access forbidden: Your API key may not have the required permissions or your account may have insufficient credits."
  else if e.status == some 404 then
    "Model not found: The specified model is not available. Please check the model name."
  else if e.status == some 500 || e.status == some 502 || e.status == some 503 then
    "OpenAI server error: The service is temporarily unavailable. Please try again later."
  else if e.code == some "ENOTFOUND" || e.code == some "ECONNREFUSED" || e.code == some "ETIMEDOUT" then
    "Network error: Unable to connect to OpenAI API. Please check your internet connection."
  else
    "OpenAI API request failed: " ++ (if e.message == "" then "Unknown error" else e.message)

/-- The loop body of `_executeWithRetry`. The request function is
modelled as a map from the attempt index to that attempt's outcome; the
jitter (`Math.random() * 1000`) as a map from the attempt index to a
number of milliseconds. `remaining = maxRetries - attempt` counts the
retries still allowed, so `remaining = 0` is the source's
`attempt === maxRetries` last-attempt check. Returns the final outcome
(classified error message on failure) together with the list of backoff
delays slept, in order. -/
def retryLoopAux {α : Type} (outcomes : Nat → Except ApiError α) (jitter : Nat → Nat) :
    Nat → Nat → Except String α × List Nat
  | attempt, remaining =>
    match outcomes attempt with
    | Except.ok r => (Except.ok r, [])
    | Except.error e =>
      if shouldNotRetry e then
        (Except.error (handleApiError e), [])
      else
        match remaining with
        | 0 => (Except.error (handleApiError e), [])
        | r + 1 =>
          let delay := 2 ^ attempt * 1000 + jitter attempt
          let rest := retryLoopAux outcomes jitter (attempt + 1) r
          (rest.1, delay :: rest.2)

/-- `_executeWithRetry` with its default bound of 3 retries after the
first attempt (attempt indices 0..maxRetries). The dead `throw` after the
source's loop is unreachable and not modelled. -/
def executeWithRetry {α : Type} (outcomes : Nat → Except ApiError α) (jitter : Nat → Nat)
    (maxRetries : Nat) : Except String α × List Nat :=
  retryLoopAux outcomes jitter 0 maxRetries

/- ----------------------------------------------------------------- -/
/- Conversation orchestrator (src/chat-manager.js)                    -/
/- ----------------------------------------------------------------- -/

/-- The wire `arguments` string of a function-call request, modelled by
its `JSON.parse` outcome (a JSON parser is not embedded): `absent` is a
falsy/missing string (parsed as `{}`), `parsed v` a string that parses to
`v`, `malformed e` a string on which `JSON.parse` throws with message `e`. -/
inductive ArgsPayload where
  | absent
  | parsed (value : JVal)
  | malformed (parseError : String)

/-- A `function_call` request object `{name, arguments}`. -/
structure FunctionCallReq where
  name : String
  arguments : ArgsPayload := ArgsPayload.absent

/-- One transcript entry. The server-assigned ISO `timestamp` is
wall-clock data and is not modelled (no claim depends on it). -/
structure Msg where
  role : String
  content : String
  function_call : Option FunctionCallReq := none
  name : Option String := none

/-- Optional metadata spread into a message by `addToHistory`. -/
structure Metadata where
  function_call : Option FunctionCallReq := none
  name : Option String := none

/-- The closed role set. -/
def validRoles : List String := ["user", "assistant", "system", "function"]

/-- `maxHistoryLength`. -/
def maxHistoryLength : Nat := 20

/-- `trimHistory`: keep the first entry (the system message) plus the most
recent `maxHistoryLength - 1` entries once the transcript exceeds
`maxHistoryLength` (`slice(-19)` is `drop (length - 19)`). -/
def trimHistory (history : List Msg) : List Msg :=
  if history.length ≤ maxHistoryLength then history
  else
    match history with
    | [] => []
    | systemMessage :: _ =>
      systemMessage :: history.drop (history.length - (maxHistoryLength - 1))

/-- `addToHistory`: validates the role (the content-is-a-string check
holds by typing), appends the message built from role, content and
metadata, then trims. A thrown error is the `Except.error` case, and the
throw happens before any mutation. -/
def addToHistory (history : List Msg) (role content : String) (metadata : Metadata) :
    Except String (List Msg) :=
  if !(validRoles.contains role) then
    Except.error ("Invalid message role: " ++ role ++ ". Must be one of: " ++
      String.intercalate ", " validRoles)
  else
    Except.ok (trimHistory (history ++
      [{ role := role, content := content,
         function_call := metadata.function_call, name := metadata.name }]))

/-- Conversation state: the transcript plus the current system message
object (used by the `includeHistory: false` request path). -/
structure ChatState where
  messageHistory : List Msg
  systemMessage : Msg

/-- The constructor's default system message. -/
def initialSystemMessage : Msg :=
  { role := "system",
    content := "You are a helpful AI assistant. You can use the available functions to help users with various tasks." }

/-- The state the `ChatManager` constructor builds. -/
def initChatState : ChatState :=
  { messageHistory := [initialSystemMessage], systemMessage := initialSystemMessage }

/-- `addToHistory` at an orchestrator-internal call site: these sites
always pass a literal valid role and a string content, so the validation
never throws there; on the (unreachable) error the state is unchanged. -/
def addMsg (st : ChatState) (role content : String) (metadata : Metadata) : ChatState :=
  match addToHistory st.messageHistory role content metadata with
  | Except.ok h => { st with messageHistory := h }
  | Except.error _ => st

/-- `getFormattedHistory`: the wire shape sent to the client — role and
content, plus `function_call` when present, plus `name` on function
messages when truthy. -/
def getFormattedHistory (history : List Msg) : List Msg :=
  history.map (fun m =>
    { role := m.role, content := m.content,
      function_call := m.function_call,
      name := if m.role == "function" then
                (match m.name with | some "" => none | x => x)
              else none })

/-- One scripted model completion (the single choice's message plus the
response metadata `processOpenAIResponse` reads). -/
structure Completion where
  content : String := ""
  function_call : Option FunctionCallReq := none
  usage : Nat := 0
  modelName : String := ""
  finish_reason : String := ""

/-- The synchronous validation `createChatCompletion` performs before
issuing the request: client readiness, non-empty message array, and the
truthiness check `!message.role || !message.content` on every entry —
note an empty string content (as carried by every assistant
function-call message) fails this check. Returns the thrown error
message, or `none` when the request proceeds. -/
def createChatCompletionError (ready : Bool) (messages : List Msg) : Option String :=
  if !ready then some "OpenAI client is not initialized. Call initialize() first."
  else if messages.isEmpty then some "Messages must be a non-empty array"
  else if messages.any (fun m => m.role == "" || m.content == "") then
    some "Each message must have role and content properties"
  else none

/-- The classified error used when the script supplies no completion for a
request that passed validation (models a request that fails at the
provider with no recognizable status — `_handleApiError`'s generic
branch). -/
def noResponseError : String := "OpenAI API request failed: Unknown error"

/-- The caller-facing envelope (`processMessage`'s resolved value). The
failure `error` object is modelled by its `type` tag; its `message`
duplicates the top-level `message` and its timestamp is not modelled. -/
structure Envelope where
  success : Bool
  message : String
  errorType : Option String := none
  requiresFunctionCall : Bool := false
  functionCall : Option FunctionCallReq := none
  usage : Option Nat := none
  respModel : Option String := none
  finishReason : Option String := none

/-- `formatFunctionResult`: strings pass through, objects (and arrays) are
JSON-stringified, other values are `String(...)`-coerced; failures become
the fixed-shape error sentence. -/
def formatFunctionResult (functionResult : ExecutionResult) (functionName : String) :
    String :=
  if functionResult.success then
    match functionResult.result with
    | some (JVal.str s) => s
    | some (JVal.obj props) => jsonStringify (JVal.obj props)
    | some (JVal.arr elems) => jsonStringify (JVal.arr elems)
    | some v => jsStringOf v
    | none => "undefined"
  else
    match functionResult.error with
    | some e => "Error executing " ++ functionName ++ ": " ++ e.message ++
        " (Type: " ++ e.type ++ ")"
    | none => "Error executing " ++ functionName ++ ": undefined"

/-- `processOpenAIResponse` / `handleFunctionCall` /
`getFinalResponseAfterFunction`, fused into one dispatch over the current
completion and the remaining script. A text completion is appended as the
assistant message and returned as a success envelope. A function-call
completion triggers the sub-protocol: append the assistant echo message
(empty content + `function_call` metadata), parse the arguments (a parse
failure appends a synthetic function-role report instead), execute
through `executeFunctionSafely` with `{timeout: 10000, sanitizeResults:
true}`, append the formatted function-role result, then request the next
completion over the extended transcript and recurse. A throw from that
request is caught: a function-role failure message is appended and the
request retried once; a second failure yields the
`FUNCTION_EXECUTION_ERROR` envelope. Returns the envelope, the final
state, and the unconsumed tail of the script. -/
def dispatch (reg : Registry) (ready : Bool) :
    List Completion → Completion → ChatState → Envelope × ChatState × List Completion
  | script, resp, st =>
    match resp.function_call with
    | none =>
      let st1 := addMsg st "assistant" resp.content {}
      ({ success := true, message := resp.content, errorType := none,
         requiresFunctionCall := false, functionCall := none,
         usage := some resp.usage, respModel := some resp.modelName,
         finishReason := some resp.finish_reason }, st1, script)
    | some functionCall =>
      let st1 := addMsg st "assistant" "" { function_call := some functionCall }
      let st2 :=
        match functionCall.arguments with
        | ArgsPayload.malformed parseError =>
          addMsg st1 "function"
            ("Failed to parse function arguments: " ++ parseError)
            { name := some functionCall.name }
        | payload =>
          let functionArgs : JVal :=
            match payload with
            | ArgsPayload.parsed v => v
            | _ => JVal.obj []
          let functionResult :=
            executeFunctionSafely reg functionCall.name functionArgs
              { timeout := 10000, sanitizeResults := true }
          addMsg st1 "function"
            (formatFunctionResult functionResult functionCall.name)
            { name := some functionCall.name }
      match script,
            createChatCompletionError ready (getFormattedHistory st2.messageHistory) with
      | c :: rest, none => dispatch reg ready rest c st2
      | remaining, firstAttemptError =>
        let innerError :=
          match firstAttemptError with
          | some e => e
          | none => noResponseError
        let wrapped :=
          "Failed to get final response after function execution: " ++ innerError
        let stE := addMsg st2 "function"
          ("Function execution failed: " ++ wrapped)
          { name := some functionCall.name }
        match remaining,
              createChatCompletionError ready (getFormattedHistory stE.messageHistory) with
        | c :: rest, none => dispatch reg ready rest c stE
        | remaining2, _ =>
          ({ success := false,
             message := "I encountered an error while executing the function: " ++ wrapped,
             errorType := some "FUNCTION_EXECUTION_ERROR",
             requiresFunctionCall := false, functionCall := none,
             usage := none, respModel := none, finishReason := none }, stE, remaining2)

/-- Options of `processMessage` (the token-budget path
`options.maxTokens → trimToTokenLimit` is not exercised by any claim and
is not modelled; the default is no token trimming). -/
structure ProcessOptions where
  includeHistory : Bool := true

/-- The catch-all failure path of `processMessage`: build the
`PROCESSING_ERROR` envelope and append its message to the transcript as
an assistant message. -/
def processError (st : ChatState) (errMessage : String) (remaining : List Completion) :
    Envelope × ChatState × List Completion :=
  let m := "I encountered an error: " ++ errMessage
  ({ success := false, message := m, errorType := some "PROCESSING_ERROR",
     requiresFunctionCall := false, functionCall := none,
     usage := none, respModel := none, finishReason := none },
   addMsg st "assistant" m {}, remaining)

/-- `processMessage`: input validation, readiness check, append the
trimmed user message, assemble the request transcript, call the client
and dispatch on the completion. Every failure is caught and converted to
a `PROCESSING_ERROR` envelope whose message is also appended to the
transcript, so the function never throws. The registry's schema list is
advertised with the request but does not change the model's scripted
behaviour, so it is not threaded through `createChatCompletionError`. -/
def processMessage (reg : Registry) (ready : Bool) (script : List Completion)
    (st : ChatState) (userInput : JVal) (options : ProcessOptions) :
    Envelope × ChatState × List Completion :=
  if !(jsTruthy userInput) || !(isJsString userInput) ||
      jsTrim (jsStrVal userInput) == "" then
    processError st "User input must be a non-empty string" script
  else if !ready then
    processError st "OpenAI client is not initialized" script
  else
    let trimmedInput := jsTrim (jsStrVal userInput)
    let st1 := addMsg st "user" trimmedInput {}
    let messages :=
      if options.includeHistory then getFormattedHistory st1.messageHistory
      else [st1.systemMessage,
            { role := "user", content := trimmedInput, function_call := none, name := none }]
    match script, createChatCompletionError ready messages with
    | c :: rest, none => dispatch reg ready rest c st1
    | _, some e => processError st1 e script
    | [], none => processError st1 noResponseError script

/-- `generateResponse`: snapshot the transcript, run `processMessage`,
restore the snapshot. The source restores in both the normal and the
catch path; the embedded `processMessage` is total (the source catches
every internal fault), so one restore covers both. -/
def generateResponse (reg : Registry) (ready : Bool) (script : List Completion)
    (st : ChatState) (userInput : JVal) (options : ProcessOptions) :
    Envelope × ChatState × List Completion :=
  let originalHistory := st.messageHistory
  let out := processMessage reg ready script st userInput options
  (out.1, { out.2.1 with messageHistory := originalHistory }, out.2.2)

/- ----------------------------------------------------------------- -/
/- Concrete instances used by the claim theorems                      -/
/- ----------------------------------------------------------------- -/

/-- A handler that settles successfully at 7000 ms — after the registry's
internal 5000 ms race deadline but before a caller's 10000 ms budget. -/
def slowHandler : Handler := fun _ =>
  { settle := some 7000, outcome := Except.ok (JVal.str "done") }

/-- Schema of the slow function. -/
def slowSchema : FunctionSchema :=
  { name := "slowFunction", description := "settles after 7 seconds" }

/-- Registry holding only the slow function. -/
def regSlow : Registry :=
  match registerFunction [] "slowFunction" slowSchema slowHandler with
  | Except.ok r => r
  | Except.error _ => []

/-- The `getCurrentTime` handler: settles immediately with a fixed
ISO-format string. -/
def timeHandler : Handler := fun _ =>
  { settle := some 0, outcome := Except.ok (JVal.str "2025-01-01T00:00:00.000Z") }

/-- The `getCurrentTime` schema (as in built-in-functions.js: an object
type with no properties). -/
def timeSchema : FunctionSchema :=
  { name := "getCurrentTime", description := "Get the current date and time",
    parameters := some { type := some "object", properties := some [] } }

/-- Registry holding only `getCurrentTime`. -/
def regTime : Registry :=
  match registerFunction [] "getCurrentTime" timeSchema timeHandler with
  | Except.ok r => r
  | Except.error _ => []

/-- The completion script of the transcript-ordering scenario: a
`getCurrentTime` function-call request followed by the text completion
"It is noon". -/
def c2Script : List Completion :=
  [ { content := "",
      function_call := some { name := "getCurrentTime", arguments := ArgsPayload.absent },
      usage := 10, modelName := "gpt-4", finish_reason := "function_call" },
    { content := "It is noon", usage := 12, modelName := "gpt-4", finish_reason := "stop" } ]

/-- The run of `processMessage "What time is it?"` against that script on
a fresh conversation. -/
def c2Run : Envelope × ChatState × List Completion :=
  processMessage regTime true c2Script initChatState (JVal.str "What time is it?") {}

/-- Folding a sequence of `addToHistory` calls over a transcript; a call
that throws leaves the transcript unchanged (the source throws before any
mutation). -/
def foldAddToHistory (history : List Msg) (calls : List (String × String × Metadata)) :
    List Msg :=
  calls.foldl (fun acc call =>
    match addToHistory acc call.1 call.2.1 call.2.2 with
    | Except.ok h' => h'
    | Except.error _ => acc) history

/-- 50 alternating user/assistant seed entries followed by one more
appended entry (the trimming scenario of the specification). -/
def c3SeedCalls : List (String × String × Metadata) :=
  ((List.range 50).map (fun i =>
    (if i % 2 == 0 then "user" else "assistant", "seed message", ({} : Metadata)))) ++
  [("user", "one more", ({} : Metadata))]

/-- A rate-limit provider error (retryable). -/
def err429 : ApiError := { status := some 429 }

/-- `parameters` of the greeter: one required string property. -/
def c5GreetParams : ParamsSchema :=
  { type := some "object",
    properties := some [("name", { type := some "string" })],
    required := some ["name"] }

/-- Schema of the greeter. -/
def c5GreetSchema : FunctionSchema :=
  { name := "greet", description := "Greet a user", parameters := some c5GreetParams }

/-- Handler of the greeter. -/
def c5GreetHandler : Handler := fun _ =>
  { settle := some 0, outcome := Except.ok (JVal.str "Hello, Alice!") }

/-- The record `registerFunction` stores for the greeter. -/
def c5GreetRec : FunctionRecord :=
  { schema := c5GreetSchema, handler := c5GreetHandler, name := "greet" }

/-- Registry holding only the greeter. -/
def c5GreetReg : Registry :=
  match registerFunction [] "greet" c5GreetSchema c5GreetHandler with
  | Except.ok r => r
  | Except.error _ => []

/-- A schema that declares a `required` list but no `properties` object.
`validateSchema` accepts it. -/
def c5NoPropsSchema : FunctionSchema :=
  { name := "noProps", description := "required without properties",
    parameters := some { type := some "object", required := some ["x"] } }

/-- An immediately succeeding handler. -/
def c5OkHandler : Handler := fun _ =>
  { settle := some 0, outcome := Except.ok (JVal.str "ran") }

/-- Registry holding only `noProps`. -/
def c5NoPropsReg : Registry :=
  match registerFunction [] "noProps" c5NoPropsSchema c5OkHandler with
  | Except.ok r => r
  | Except.error _ => []

/-- A schema with one required, typed string property. -/
def c5BoomSchema : FunctionSchema :=
  { name := "boom", description := "throws on every call",
    parameters := some
      { type := some "object",
        properties := some [("x", { type := some "string" })],
        required := some ["x"] } }

/-- A handler that throws (rejects immediately). -/
def c5BoomHandler : Handler := fun _ =>
  { settle := some 0, outcome := Except.error "kaboom" }

/-- Registry holding only `boom`. -/
def c5BoomReg : Registry :=
  match registerFunction [] "boom" c5BoomSchema c5BoomHandler with
  | Except.ok r => r
  | Except.error _ => []

/-- A handler whose promise never settles. -/
def c6SpinHandler : Handler := fun _ =>
  { settle := none, outcome := Except.ok JVal.null }

/-- Schema of the never-settling function. -/
def c6SpinSchema : FunctionSchema :=
  { name := "spin", description := "never settles" }

/-- Registry holding only `spin`. -/
def c6SpinReg : Registry :=
  match registerFunction [] "spin" c6SpinSchema c6SpinHandler with
  | Except.ok r => r
  | Except.error _ => []

/-- A handler that rejects immediately (an ordinary execution failure,
used to compare error kinds with the timeout failure). -/
def c6ThrowHandler : Handler := fun _ =>
  { settle := some 0, outcome := Except.error "boom" }

/-- Schema of the immediately rejecting function. -/
def c6ThrowSchema : FunctionSchema :=
  { name := "thrower", description := "rejects immediately" }

/-- Registry holding only `thrower`. -/
def c6ThrowReg : Registry :=
  match registerFunction [] "thrower" c6ThrowSchema c6ThrowHandler with
  | Except.ok r => r
  | Except.error _ => []

/-- A handler that settles successfully only at 6000 ms (after the
registry's 5000 ms deadline). -/
def c6WaitHandler : Handler := fun _ =>
  { settle := some 6000, outcome := Except.ok (JVal.str "late") }

/-- Schema of the late function. -/
def c6WaitSchema : FunctionSchema :=
  { name := "wait", description := "settles after 6 seconds" }

/-- The record stored for the late function. -/
def c6WaitRec : FunctionRecord :=
  { schema := c6WaitSchema, handler := c6WaitHandler, name := "wait" }

/-- Registry holding only `wait`. -/
def c6WaitReg : Registry :=
  match registerFunction [] "wait" c6WaitSchema c6WaitHandler with
  | Except.ok r => r
  | Except.error _ => []

/-- One registry mutation, as named by the map invariant claim. -/
inductive RegCall where
  | register (name : String) (schema : FunctionSchema) (handler : Handler)
  | registerBuiltIns (schemas : List SchemaWrapper) (handlers : List (String × Handler))
  | unregister (name : String)

/-- Apply one registry mutation; a throwing `registerFunction` leaves the
registry unchanged (the source throws before `Map.set`). -/
def applyRegCall (reg : Registry) : RegCall → Registry
  | RegCall.register name schema handler =>
    match registerFunction reg name schema handler with
    | Except.ok r => r
    | Except.error _ => reg
  | RegCall.registerBuiltIns schemas handlers => registerBuiltInFunctions reg schemas handlers
  | RegCall.unregister name => unregisterFunction reg name

/-- Every stored record's schema name equals its map key. -/
def registryInvariant (reg : Registry) : Bool :=
  reg.all (fun kv => kv.2.schema.name == kv.1)

/-- A call respects the name/schema alignment: direct `register` passes a
name equal to the schema's own name (as `registerBuiltInFunctions` always
does, and as `registerFunction`'s doc comment demands of callers). -/
def alignedCall : RegCall → Prop
  | RegCall.register name schema _ => name = schema.name
  | _ => True

/-- A valid schema whose name is "bar". -/
def c9BarSchema : FunctionSchema :=
  { name := "bar", description := "schema named bar" }

/-- A trivial handler. -/
def c9Handler : Handler := fun _ =>
  { settle := some 0, outcome := Except.ok JVal.null }

/-- A valid schema whose name is "good". -/
def c9GoodSchema : FunctionSchema :=
  { name := "good", description := "schema named good" }

/- ----------------------------------------------------------------- -/
/- Helper lemmas                                                      -/
/- ----------------------------------------------------------------- -/

/-- Trimming never increases beyond the bound: a transcript of at most 21
entries trims to at most 20. -/
theorem trimHistory_length_le {h : List Msg} (hle : h.length ≤ 21) :
    (trimHistory h).length ≤ 20 := by
  cases h with
  | nil => simp [trimHistory, maxHistoryLength]
  | cons a t =>
    simp only [trimHistory, maxHistoryLength]
    split
    · next hc => exact hc
    · next hc =>
      simp only [List.length_cons, List.length_drop]
      omega

/-- Trimming preserves the first entry. -/
theorem trimHistory_head {a : Msg} {t : List Msg} :
    (trimHistory (a :: t)).head? = some a := by
  simp only [trimHistory]
  split
  · rfl
  · rfl

/-- Every entry of a trimmed transcript was in the untrimmed one. -/
theorem trimHistory_mem {h : List Msg} {x : Msg} (hx : x ∈ trimHistory h) : x ∈ h := by
  cases h with
  | nil => simp [trimHistory] at hx
  | cons a t =>
    simp only [trimHistory] at hx
    split at hx
    · exact hx
    · rcases List.mem_cons.mp hx with rfl | hmem
      · exact List.mem_cons_self _ _
      · exact List.drop_subset _ _ hmem

/-- A successful `addToHistory` preserves the head entry and the length
bound. -/
theorem addToHistory_ok_inv {h : List Msg} {role content : String} {md : Metadata}
    {sys : Msg} {h' : List Msg}
    (hh : h.head? = some sys) (hl : h.length ≤ 20)
    (hok : addToHistory h role content md = Except.ok h') :
    h'.head? = some sys ∧ h'.length ≤ 20 := by
  unfold addToHistory at hok
  split at hok
  · exact absurd hok (by simp)
  · injection hok with hok
    subst hok
    cases h with
    | nil => simp at hh
    | cons a t =>
      have ha : a = sys := by simpa using hh
      subst ha
      refine ⟨?_, ?_⟩
      · simpa using (@trimHistory_head _ (t ++ [_]))
      · apply trimHistory_length_le
        simp only [List.length_append, List.length_cons, List.length_nil]
        simp only [List.length_cons] at hl
        omega

/-- The fold of `addToHistory` calls preserves the head entry and the
length bound (a throwing call leaves the transcript unchanged). -/
theorem foldAddToHistory_inv (calls : List (String × String × Metadata)) :
    ∀ h sys, h.head? = some sys → h.length ≤ 20 →
      (foldAddToHistory h calls).head? = some sys ∧
      (foldAddToHistory h calls).length ≤ 20 := by
  induction calls with
  | nil => intro h sys hh hl; exact ⟨hh, hl⟩
  | cons c cs ih =>
    intro h sys hh hl
    have hstep : foldAddToHistory h (c :: cs) =
        foldAddToHistory
          (match addToHistory h c.1 c.2.1 c.2.2 with
           | Except.ok h' => h'
           | Except.error _ => h) cs := rfl
    rw [hstep]
    rcases he : addToHistory h c.1 c.2.1 c.2.2 with e | h'
    · simp only [he]
      exact ih h sys hh hl
    · simp only [he]
      obtain ⟨hh', hl'⟩ := addToHistory_ok_inv hh hl he
      exact ih h' sys hh' hl'

/-- The error path of `processMessage` returns a failure envelope and
appends exactly one assistant message before trimming. -/
theorem processError_history (st : ChatState) (e : String) (rem : List Completion) :
    (processError st e rem).2.1.messageHistory =
      trimHistory (st.messageHistory ++
        [{ role := "assistant", content := "I encountered an error: " ++ e,
           function_call := none, name := none }]) := by
  simp [processError, addMsg, addToHistory, validRoles]

/-- The delays list of the retry loop is bounded by the remaining-retries
budget. -/
theorem retryLoopAux_delays_le {α : Type} (outcomes : Nat → Except ApiError α)
    (jitter : Nat → Nat) :
    ∀ remaining attempt, (retryLoopAux outcomes jitter attempt remaining).2.length ≤ remaining := by
  intro remaining
  induction remaining with
  | zero =>
    intro attempt
    simp only [retryLoopAux]
    rcases outcomes attempt with e | r <;> simp
  | succ n ih =>
    intro attempt
    rw [retryLoopAux]
    rcases houtcome : outcomes attempt with e | r
    · simp only [houtcome]
      split
      · simp
      · simpa using Nat.succ_le_succ (ih (attempt + 1))
    · simp [houtcome]

/-- Updating a key with a record whose schema name matches it preserves
the registry invariant. -/
theorem mapSet_invariant {reg : Registry} {k : String} {v : FunctionRecord}
    (hreg : registryInvariant reg = true) (hv : v.schema.name = k) :
    registryInvariant (mapSet reg k v) = true := by
  simp only [registryInvariant, List.all_eq_true, beq_iff_eq] at *
  intro kv hkv
  simp only [mapSet] at hkv
  split at hkv
  · rcases List.mem_map.mp hkv with ⟨kv', hkv', rfl⟩
    by_cases hk : kv'.1 == k
    · simp [hk, hv]
    · simpa [hk] using hreg kv' hkv'
  · rcases List.mem_append.mp hkv with hmem | hmem
    · exact hreg kv hmem
    · rcases List.mem_singleton.mp hmem with rfl
      simpa using hv

/-- The registry produced by a successful `registerFunction` call. -/
theorem registerFunction_ok_eq {reg : Registry} {n : String} {s : FunctionSchema}
    {hd : Handler} {r' : Registry}
    (hok : registerFunction reg n s hd = Except.ok r') :
    r' = mapSet reg n { schema := s, handler := hd, name := n } := by
  unfold registerFunction at hok
  split at hok
  · exact absurd hok (by simp)
  · split at hok
    · exact absurd hok (by simp)
    · injection hok with hok
      exact hok.symm

/-- A name-aligned `register` call (throwing or not) preserves the
registry invariant. -/
theorem registerCall_invariant {reg : Registry} {n : String} {s : FunctionSchema}
    {hd : Handler} (hreg : registryInvariant reg = true) (hn : n = s.name) :
    registryInvariant
      (match registerFunction reg n s hd with
       | Except.ok r => r
       | Except.error _ => reg) = true := by
  rcases hok : registerFunction reg n s hd with e | r'
  · simpa using hreg
  · have := registerFunction_ok_eq hok
    subst this
    exact mapSet_invariant hreg hn.symm

/-- `registerBuiltInFunctions` preserves the registry invariant: every
inner registration uses the schema's own name as the key. -/
theorem registerBuiltIns_invariant (schemas : List SchemaWrapper)
    (handlers : List (String × Handler)) :
    ∀ reg, registryInvariant reg = true →
      registryInvariant (registerBuiltInFunctions reg schemas handlers) = true := by
  induction schemas with
  | nil => intro reg hreg; simpa [registerBuiltInFunctions] using hreg
  | cons w ws ih =>
    intro reg hreg
    simp only [registerBuiltInFunctions]
    rcases hfind : (handlers.find? (fun h => h.1 == w.function.name)).map (fun h => h.2) with
      _ | handler
    · simp only [hfind]
      exact hreg
    · simp only [hfind]
      rcases hok : registerFunction reg w.function.name w.function handler with e | r'
      · simp only [hok]
        exact hreg
      · simp only [hok]
        have hr' : registryInvariant r' = true := by
          have := @registerCall_invariant reg w.function.name w.function handler hreg rfl
          simpa [hok] using this
        exact ih r' hr'

/-- Removal preserves the registry invariant. -/
theorem unregister_invariant {reg : Registry} {n : String}
    (hreg : registryInvariant reg = true) :
    registryInvariant (unregisterFunction reg n) = true := by
  simp only [registryInvariant, List.all_eq_true] at *
  intro kv hkv
  exact hreg kv (List.mem_of_mem_filter hkv)

/-- Any name-aligned registry call preserves the invariant. -/
theorem applyRegCall_invariant {reg : Registry} {c : RegCall}
    (hreg : registryInvariant reg = true) (hc : alignedCall c) :
    registryInvariant (applyRegCall reg c) = true := by
  cases c with
  | register n s hd => exact registerCall_invariant hreg hc
  | registerBuiltIns ws hs => exact registerBuiltIns_invariant ws hs reg hreg
  | unregister n => exact unregister_invariant hreg

/- ----------------------------------------------------------------- -/
/- Claim theorems                                                     -/
/- ----------------------------------------------------------------- -/

/-- Claim C1. The claim says `executeFunctionSafely` races the handler
against the caller-supplied `options.timeout` instead of the internal
5000 ms default, so a handler settling at 7000 ms under a 10000 ms budget
should succeed. The code never threads `options.timeout` into the race:
`executeFunction` always uses its own 5000 ms constant, and the option is
only copied into the result's `timeout` metadata field. Evaluating the
code at the failing input: the call fails with the 5000 ms timeout error
even though the returned metadata records the 10000 ms budget. -/
theorem executeFunctionSafely_timeout_option_not_applied :
    (executeFunctionSafely regSlow "slowFunction" (JVal.obj [])
      { timeout := 10000, sanitizeResults := true }).success = false ∧
    (executeFunctionSafely regSlow "slowFunction" (JVal.obj [])
      { timeout := 10000, sanitizeResults := true }).timeout = some 10000 ∧
    (executeFunctionSafely regSlow "slowFunction" (JVal.obj [])
      { timeout := 10000, sanitizeResults := true }).error =
      some { message := "Function execution failed: Function execution timeout after 5000ms",
             type := "EXECUTION_ERROR", functionName := some "slowFunction",
             originalError := some "Error" } :=
  ⟨rfl, rfl, rfl⟩

/-- Claim C2. The claim says processing user input against a completion
script [function-call(getCurrentTime), text("It is noon")] appends
user, assistant(function_call), function(result), assistant(text) and
returns a success envelope whose message is "It is noon". Evaluating the
code: the function result is appended, but the follow-up completion
request is rejected by `createChatCompletion`'s own validation, because
the echoed assistant function-call message has the (deliberately) empty
content that `!message.content` treats as missing. The turn therefore
ends with a second, error-reporting function message, a
FUNCTION_EXECUTION_ERROR failure envelope, and the text completion never
consumed — the final assistant text never enters the transcript. -/
theorem processMessage_function_call_round_rejected :
    c2Run.1.success = false ∧
    c2Run.1.errorType = some "FUNCTION_EXECUTION_ERROR" ∧
    c2Run.1.message =
      "I encountered an error while executing the function: Failed to get final response after function execution: Each message must have role and content properties" ∧
    c2Run.2.1.messageHistory.map Msg.role =
      ["system", "user", "assistant", "function", "function"] ∧
    c2Run.2.2.map Completion.content = ["It is noon"] :=
  ⟨rfl, rfl, rfl, rfl, rfl⟩

set_option maxRecDepth 40000 in
/-- Claim C3. On a transcript seeded with a system message, every
sequence of `addToHistory` calls keeps that message as the first entry
and keeps the length at most 20; in particular seeding 50 user/assistant
entries and appending one more leaves exactly 20 entries headed by the
original system message. -/
theorem addToHistory_system_head_and_length_bound (sys : Msg)
    (calls : List (String × String × Metadata)) :
    (foldAddToHistory [sys] calls).head? = some sys ∧
    (foldAddToHistory [sys] calls).length ≤ 20 ∧
    (foldAddToHistory [initialSystemMessage] c3SeedCalls).length = 20 ∧
    (foldAddToHistory [initialSystemMessage] c3SeedCalls).head? =
      some initialSystemMessage := by
  obtain ⟨h1, h2⟩ := foldAddToHistory_inv calls [sys] sys rfl (by simp)
  exact ⟨h1, h2, by rfl, by rfl⟩

/-- Claim C4. Terminal statuses (401/403/400/404) propagate as a
classified error immediately after the first attempt with no retries; a
run of retryable failures is retried exactly 3 more times with delays
`2^attempt * 1000 + jitter attempt` (jitter below 1000 ms, attempt
indexed from 0), after which the last classified error propagates; and no
outcome script ever produces more than 3 retries. -/
theorem executeWithRetry_terminal_and_backoff_policy {α : Type}
    (outcomes : Nat → Except ApiError α) (jitter : Nat → Nat)
    (hj : ∀ a, jitter a < 1000) :
    (∀ e0, outcomes 0 = Except.error e0 →
      (e0.status = some 401 ∨ e0.status = some 403 ∨
       e0.status = some 400 ∨ e0.status = some 404) →
      executeWithRetry outcomes jitter 3 = (Except.error (handleApiError e0), [])) ∧
    (∀ f : Nat → ApiError,
      (∀ a, a ≤ 3 → outcomes a = Except.error (f a) ∧ shouldNotRetry (f a) = false) →
      executeWithRetry outcomes jitter 3 =
        (Except.error (handleApiError (f 3)),
         [2 ^ 0 * 1000 + jitter 0, 2 ^ 1 * 1000 + jitter 1, 2 ^ 2 * 1000 + jitter 2])) ∧
    (∀ a, 2 ^ a * 1000 + jitter a < 2 ^ a * 1000 + 1000) ∧
    (executeWithRetry outcomes jitter 3).2.length ≤ 3 := by
  refine ⟨?_, ?_, ?_, ?_⟩
  · intro e0 h0 hs
    have hsn : shouldNotRetry e0 = true := by
      rcases hs with h | h | h | h <;> simp [shouldNotRetry, h]
    rw [executeWithRetry, retryLoopAux]
    simp [h0, hsn]
  · intro f hf
    obtain ⟨o0, s0⟩ := hf 0 (by omega)
    obtain ⟨o1, s1⟩ := hf 1 (by omega)
    obtain ⟨o2, s2⟩ := hf 2 (by omega)
    obtain ⟨o3, s3⟩ := hf 3 (by omega)
    rw [executeWithRetry, retryLoopAux]
    simp only [o0, s0, Bool.false_eq_true, if_false]
    rw [retryLoopAux]
    simp only [o1, s1, Bool.false_eq_true, if_false]
    rw [retryLoopAux]
    simp only [o2, s2, Bool.false_eq_true, if_false]
    rw [retryLoopAux]
    simp only [o3, s3, Bool.false_eq_true, if_false]
  · intro a
    exact Nat.add_lt_add_left (hj a) _
  · exact retryLoopAux_delays_le outcomes jitter 3 0

/-- Witness for C4: with zero jitter and a constant rate-limit failure,
the call exhausts its 3 retries with delays 1000, 2000, 4000 ms and
propagates the classified rate-limit error. -/
theorem executeWithRetry_terminal_and_backoff_policy_witness :
    executeWithRetry (fun _ => (Except.error err429 : Except ApiError Unit)) (fun _ => 0) 3 =
      (Except.error (handleApiError err429), [1000, 2000, 4000]) := by
  have h := (executeWithRetry_terminal_and_backoff_policy
    (fun _ => (Except.error err429 : Except ApiError Unit)) (fun _ => 0)
    (fun _ => by norm_num)).2.1
  have h2 := h (fun _ => err429) (fun a _ => ⟨rfl, rfl⟩)
  rw [h2]
  norm_num

/-- Counterexample for C5, at two explicit inputs. (α) A registered
function whose schema declares `required: ["x"]` but no `properties`
object: calling it with `{}` (omitting the required key) succeeds —
`validateArguments` returns valid whenever `properties` is absent, so no
ValidationError is produced. (β) A registered function with the required
string argument present and correctly typed whose handler throws: the
call returns a failure, not `success: true`. -/
theorem executeFunction_required_args_counterexample :
    (executeFunction c5NoPropsReg "noProps" (JVal.obj [])).success = true ∧
    (executeFunction c5BoomReg "boom" (JVal.obj [("x", JVal.str "a")])).success = false :=
  ⟨rfl, rfl⟩

/-- Claim C5 as amended. For a registered function whose schema has a
`properties` object and a `required` list, calling `executeFunction` with
an arguments object missing a required key returns a ValidationError
naming the (first) missing key — and since the conclusion is a fixed
value not mentioning the handler, this holds identically for every
handler and every settle time: the handler is never invoked and no
timeout budget is consumed. With arguments that pass the full validation
and a handler that settles successfully within the 5000 ms race,
`executeFunction` returns `success: true` with the handler's value. -/
theorem executeFunction_required_args_amended
    (reg : Registry) (name : String) (fd : FunctionRecord) (p : ParamsSchema)
    (props : List (String × ParamSchema)) (required : List String) (args : JVal)
    (hfd : mapGet reg name = some fd)
    (hp : fd.schema.parameters = some p)
    (hprops : p.properties = some props)
    (hargs : jsArgsIsObject args = true) :
    (∀ k, p.required = some required → firstMissingRequired required args = some k →
      executeFunction reg name args =
        formatError ("Missing required parameter: " ++ k) "VALIDATION_ERROR") ∧
    (validateArguments args p = none →
      ∀ t v, (fd.handler args).settle = some t → t < raceTimeoutMs →
        (fd.handler args).outcome = Except.ok v →
        executeFunction reg name args = formatSuccess v name) := by
  constructor
  · intro k hreq hmiss
    simp [executeFunction, validateArguments, hfd, hp, hprops, hargs, hreq, hmiss]
  · intro hval t v hsettle hlt houtcome
    simp [executeFunction, hfd, hp, hval, hsettle, hlt, houtcome]

/-- Witness for C5: the greeter (one required string parameter "name")
rejects `{}` with the ValidationError naming "name", and succeeds on
`{name: "Alice"}`. -/
theorem executeFunction_required_args_amended_witness :
    executeFunction c5GreetReg "greet" (JVal.obj []) =
      formatError "Missing required parameter: name" "VALIDATION_ERROR" ∧
    executeFunction c5GreetReg "greet" (JVal.obj [("name", JVal.str "Alice")]) =
      formatSuccess (JVal.str "Hello, Alice!") "greet" := by
  constructor
  · exact (executeFunction_required_args_amended c5GreetReg "greet" c5GreetRec
      c5GreetParams [("name", { type := some "string" })] ["name"] (JVal.obj [])
      rfl rfl rfl rfl).1 "name" rfl rfl
  · exact (executeFunction_required_args_amended c5GreetReg "greet" c5GreetRec
      c5GreetParams [("name", { type := some "string" })] ["name"]
      (JVal.obj [("name", JVal.str "Alice")]) rfl rfl rfl rfl).2 rfl 0
      (JVal.str "Hello, Alice!") rfl (by decide) rfl

/-- Counterexample for C6, at an explicit input: a registered function
whose handler never settles. The returned failure's error kind is
"EXECUTION_ERROR" — not a distinct TimeoutError kind (no such kind exists
in the registry; "TIMEOUT_ERROR" never occurs) — and it is the very same
kind an ordinary handler rejection produces, so the timeout is not
distinguishable by kind as the claim requires. -/
theorem executeFunction_timeout_kind_counterexample :
    (executeFunction c6SpinReg "spin" (JVal.obj [])).success = false ∧
    (executeFunction c6SpinReg "spin" (JVal.obj [])).error.map ErrInfo.type =
      some "EXECUTION_ERROR" ∧
    (executeFunction c6SpinReg "spin" (JVal.obj [])).error.map ErrInfo.type ≠
      some "TIMEOUT_ERROR" ∧
    (executeFunction c6SpinReg "spin" (JVal.obj [])).error.map ErrInfo.type =
      (executeFunction c6ThrowReg "thrower" (JVal.obj [])).error.map ErrInfo.type :=
  ⟨rfl, rfl, by decide, rfl⟩

/-- Claim C6 as amended. For a registered function whose arguments pass
validation, a handler that never settles — or settles only at or after
the 5000 ms race deadline — makes `executeFunction` return the fixed
timeout failure (kind EXECUTION_ERROR, message naming the 5000 ms
timeout). The conclusion is a fixed value not mentioning the handler's
outcome: the eventual settlement (success or failure) is discarded and
cannot alter the returned result; and `executeFunction` reads but never
writes the registry map, so no registry state changes either. -/
theorem executeFunction_timeout_amended
    (reg : Registry) (name : String) (fd : FunctionRecord) (args : JVal)
    (hfd : mapGet reg name = some fd)
    (hval : (match fd.schema.parameters with
             | some p => validateArguments args p
             | none => none) = none)
    (hsettle : (fd.handler args).settle = none ∨
               ∃ t, (fd.handler args).settle = some t ∧ raceTimeoutMs ≤ t) :
    executeFunction reg name args =
      formatError "Function execution failed: Function execution timeout after 5000ms"
        "EXECUTION_ERROR" (some name) (some "Error") := by
  rcases hsettle with hnone | ⟨t, hsome, hle⟩
  · simp [executeFunction, hfd, hval, hnone]
  · simp [executeFunction, hfd, hval, hsome, Nat.not_lt.mpr hle]

/-- Witness for C6: a handler that settles successfully only at 6000 ms
still yields the 5000 ms timeout failure. -/
theorem executeFunction_timeout_amended_witness :
    executeFunction c6WaitReg "wait" (JVal.obj []) =
      formatError "Function execution failed: Function execution timeout after 5000ms"
        "EXECUTION_ERROR" (some "wait") (some "Error") :=
  executeFunction_timeout_amended c6WaitReg "wait" c6WaitRec (JVal.obj [])
    rfl rfl (Or.inr ⟨6000, rfl, by decide⟩)

/-- Claim C7. The round-trip half holds — indeed `sanitizeResult` is the
identity on every representable value, because `JSON.stringify` only
throws on circular structures (not representable as inductive data) and
never on function/undefined/symbol values. Evaluating the code at the
failing inputs: a bare function value and a function-containing object
pass through unchanged, still holding the live function — they are not
converted to a JSON-serializable approximation, so the code's own
conversion branches ("[Function]" and friends) are dead. -/
theorem sanitizeResult_identity_and_function_passthrough :
    (∀ v : JVal, sanitizeResult v = v) ∧
    sanitizeResult JVal.func = JVal.func ∧
    isJsonValue JVal.func = false ∧
    sanitizeResult (JVal.obj [("f", JVal.func)]) = JVal.obj [("f", JVal.func)] ∧
    isJsonValue (JVal.obj [("f", JVal.func)]) = false := by
  refine ⟨?_, rfl, ?_, rfl, ?_⟩
  · intro v
    simp [sanitizeResult, jsonStringifyThrows]
  · simp [isJsonValue]
  · simp [isJsonValue, isJsonValueProps]

/-- Claim C8. For every empty-string or non-string user input,
`processMessage` returns a failure envelope and appends no user-role
message: every user-role entry of the resulting transcript was already
in the transcript before the call (the error path only appends one
assistant-role message). -/
theorem processMessage_invalid_input_no_user_append
    (reg : Registry) (ready : Bool) (script : List Completion) (st : ChatState)
    (userInput : JVal) (options : ProcessOptions)
    (h : userInput = JVal.str "" ∨ ∀ s, userInput ≠ JVal.str s) :
    (processMessage reg ready script st userInput options).1.success = false ∧
    ∀ m ∈ (processMessage reg ready script st userInput options).2.1.messageHistory,
      m.role = "user" → m ∈ st.messageHistory := by
  have hcond : (!(jsTruthy userInput) || !(isJsString userInput) ||
      jsTrim (jsStrVal userInput) == "") = true := by
    rcases h with rfl | hns
    · rfl
    · have hstr : isJsString userInput = false := by
        cases userInput
        case str s => exact absurd rfl (hns s)
        all_goals rfl
      simp [hstr]
  have heq : processMessage reg ready script st userInput options =
      processError st "User input must be a non-empty string" script := by
    simp only [processMessage, hcond, if_true]
  constructor
  · rw [heq]
    rfl
  · intro m hm hrole
    rw [heq, processError_history] at hm
    rcases List.mem_append.mp (trimHistory_mem hm) with hold | hnew
    · exact hold
    · rcases List.mem_singleton.mp hnew with rfl
      simp at hrole

/-- Witness for C8: the empty string input on a fresh conversation
produces a failure envelope. -/
theorem processMessage_invalid_input_no_user_append_witness :
    (processMessage [] true [] initChatState (JVal.str "") {}).1.success = false :=
  (processMessage_invalid_input_no_user_append [] true [] initChatState
    (JVal.str "") {} (Or.inl rfl)).1

/-- Counterexample for C9, at an explicit input: `registerFunction` never
compares the registration key with `schema.name`, so calling it with name
"foo" and a (valid) schema named "bar" stores a record under key "foo"
whose schema name is "bar" — the invariant is violated after this single
call sequence. -/
theorem registerFunction_name_mismatch_counterexample :
    registryInvariant (applyRegCall [] (RegCall.register "foo" c9BarSchema c9Handler)) =
      false ∧
    (mapGet (applyRegCall [] (RegCall.register "foo" c9BarSchema c9Handler)) "foo").map
      (fun fd => fd.schema.name) = some "bar" :=
  ⟨rfl, rfl⟩

/-- Claim C9 as amended. After every sequence of registerFunction,
registerBuiltInFunctions and unregisterFunction calls in which each
direct `registerFunction` call passes a name equal to its schema's name
(`registerBuiltInFunctions` always does, registering under
`schema.name`), every stored record's schema name equals its map key.
The alignment hypothesis on direct calls is necessary: the registry
itself never enforces it. -/
theorem registry_schema_name_invariant_amended
    (calls : List RegCall) (h : ∀ c ∈ calls, alignedCall c) :
    registryInvariant (calls.foldl applyRegCall []) = true := by
  suffices haux : ∀ cs : List RegCall, ∀ reg : Registry,
      registryInvariant reg = true → (∀ c ∈ cs, alignedCall c) →
      registryInvariant (cs.foldl applyRegCall reg) = true by
    exact haux calls [] rfl h
  intro cs
  induction cs with
  | nil => intro reg hreg _; simpa using hreg
  | cons c cs' ih =>
    intro reg hreg hall
    simp only [List.foldl_cons]
    exact ih (applyRegCall reg c)
      (applyRegCall_invariant hreg (hall c (List.mem_cons_self _ _)))
      (fun c' hc' => hall c' (List.mem_cons_of_mem _ hc'))

/-- Witness for C9: a name-aligned registration followed by an unrelated
removal maintains the invariant. -/
theorem registry_schema_name_invariant_amended_witness :
    registryInvariant
      ([RegCall.register "good" c9GoodSchema c9Handler,
        RegCall.unregister "missing"].foldl applyRegCall []) = true := by
  apply registry_schema_name_invariant_amended
  intro c hc
  rcases List.mem_cons.mp hc with rfl | hc2
  · rfl
  · rcases List.mem_cons.mp hc2 with rfl | hc3
    · trivial
    · cases hc3

/-- Claim C10. `generateResponse` snapshots `messageHistory`, calls
`processMessage` (which in the source catches every internal fault, so it
always returns; the source's catch path restores the snapshot before
rethrowing just as the normal path does), and restores the snapshot: for
every prior state, input, script and options, the transcript after the
call equals the transcript before it. -/
theorem generateResponse_restores_history
    (reg : Registry) (ready : Bool) (script : List Completion) (st : ChatState)
    (userInput : JVal) (options : ProcessOptions) :
    (generateResponse reg ready script st userInput options).2.1.messageHistory =
      st.messageHistory :=
  rfl
